import Mathlib

/-
Shallow embedding of the `unty` crate (src/src/lib.rs).

The crate exports two functions:

  pub fn type_equal<Src: ?Sized, Target: ?Sized>() -> bool
  pub unsafe fn unty<Src, Target: 'static>(x: Src) -> Result<Target, Src>

`type_equal` compares `non_static_type_id::<Src>()` with
`non_static_type_id::<Target>()`.  `non_static_type_id::<T>` wraps `T` in a
zero-size `PhantomData<T>` marker, transmutes a `&dyn NonStaticAny` reference
to `&(dyn NonStaticAny + 'static)` so that the `Self: 'static` obligation on
`get_type_id` is discharged, and then calls `TypeId::of::<T>()`.  The runtime
effect of that detour is that the `TypeId` is computed for `T` with all of its
lifetime parameters treated as `'static`, i.e. for the lifetime-erased type.

We model Rust types syntactically (`RustType`), lifetimes explicitly
(`Lifetime`), and the host's `TypeId::of` primitive as the injective function
packaging the (already `'static`) type into a token.  `non_static_type_id` is
then `TypeId.of` composed with lifetime erasure, exactly matching the
transmute-to-`'static` detour in the source.

`unty` consumes a value.  Values are modelled as a static type tag together
with a bit pattern (`Value`).  On the success path the source wraps `x` in
`mem::ManuallyDrop::new` (suppressing its destructor) and returns
`Ok(mem::transmute_copy::<Src, Target>(&x))`, a `Target`-typed value with the
same bits; on the failure path it returns `Err(x)`, moving the untouched value
back to the caller.  We instrument the embedding with the number of destructor
invocations performed during the call: `ManuallyDrop` suppresses the drop on
the success path and `Err(x)` is a move, so both branches perform zero drops.
-/

/-- A Rust lifetime parameter: either `'static` or a named region such as
`'a`, `'b` (identified here by a natural number). -/
inductive Lifetime : Type
  | static : Lifetime
  | named : Nat → Lifetime
deriving DecidableEq, Repr

/-- Syntactic model of a (monomorphized) Rust type: primitive named types
(`u8`, `str`, `String`, ...), references `&'lt T` carrying a lifetime, and
unary generic applications such as `Vec<T>` or `PhantomData<T>`. -/
inductive RustType : Type
  | prim : String → RustType
  | ref : Lifetime → RustType → RustType
  | app : String → RustType → RustType
deriving DecidableEq, Repr

namespace Unty

/-- Replace every lifetime occurring in a type by `'static`.  This is what the
`transmute::<&dyn NonStaticAny, &(dyn NonStaticAny + 'static)>` step of
`non_static_type_id` amounts to at runtime: the `TypeId` is computed for the
type with its regions erased. -/
def eraseLifetimes : RustType → RustType
  | .prim n => .prim n
  | .ref _ t => .ref .static (eraseLifetimes t)
  | .app h t => .app h (eraseLifetimes t)

/-- A type satisfies the host's `'static` bound when it contains no named
(non-`'static`) lifetime parameter. -/
def isStatic : RustType → Bool
  | .prim _ => true
  | .ref lt t => decide (lt = Lifetime.static) && isStatic t
  | .app _ t => isStatic t

/-- The host's opaque comparable identity token (`core::any::TypeId`).  The
host guarantees `TypeId::of` is injective on `'static` types within one
process, so we model the token as the packaged `'static` type itself. -/
structure TypeId : Type where
  token : RustType
deriving DecidableEq, Repr

/-- The host's direct reflection primitive `TypeId::of::<T>()`.  The host only
allows it on types satisfying the `'static` bound; the crate's whole point is
to reach it from types that do not. -/
def TypeId.of (t : RustType) : TypeId := ⟨t⟩

/-- Embedding of the private `fn non_static_type_id<T: ?Sized>() -> TypeId`
(src/src/lib.rs lines 84-104): wrap `T` in `PhantomData`, transmute the
`&dyn NonStaticAny` reference to `'static`, and invoke `TypeId::of::<T>()`.
The runtime semantics of the detour is `TypeId::of` on the lifetime-erased
type. -/
def non_static_type_id (t : RustType) : TypeId :=
  TypeId.of (eraseLifetimes t)

/-- Embedding of `pub fn type_equal<Src: ?Sized, Target: ?Sized>() -> bool`
(src/src/lib.rs lines 78-80):
`non_static_type_id::<Src>() == non_static_type_id::<Target>()`. -/
def type_equal (Src Target : RustType) : Bool :=
  non_static_type_id Src == non_static_type_id Target

/-- A runtime value: its static (source-level) type together with its bit
pattern. -/
structure Value : Type where
  ty : RustType
  bits : List Bool
deriving DecidableEq, Repr

/-- Embedding of `pub unsafe fn unty<Src, Target: 'static>(x: Src) ->
Result<Target, Src>` (src/src/lib.rs lines 45-52), instrumented with the
number of destructor invocations performed during the call.  On the success
path `let x = mem::ManuallyDrop::new(x)` suppresses the destructor of `x` and
`mem::transmute_copy::<Src, Target>(&x)` builds a `Target`-typed value from
the same bits (zero drops); on the failure path `Err(x)` moves the untouched
value back to the caller (zero drops). -/
def untyD (Src Target : RustType) (x : Value) : Except Value Value × Nat :=
  if type_equal Src Target then
    (Except.ok { ty := Target, bits := x.bits }, 0)
  else
    (Except.error x, 0)

/-- The result of `unty` without the drop instrumentation, matching the
source signature `Result<Target, Src>`. -/
def unty (Src Target : RustType) (x : Value) : Except Value Value :=
  (untyD Src Target x).1

/-- Number of owned handles handed back to the caller by a call to `unty`.
Each branch returns exactly one owned value (`Ok` or `Err`); by Rust's
ownership discipline the caller eventually drops each returned owned handle
exactly once. -/
def returnedHandles : Except Value Value → Nat
  | .ok _ => 1
  | .error _ => 1

/-- Total number of destructor invocations for the resource originally owned
by `x` across the whole operation: the drops performed during the call plus
the one eventual drop of each owned handle returned to the caller. -/
def totalDrops (Src Target : RustType) (x : Value) : Nat :=
  (untyD Src Target x).2 + returnedHandles (untyD Src Target x).1

/-- Abstract global mutable state of the process.  The source functions read
and write no statics and no globals, so their stateful embeddings thread the
world through unchanged. -/
def World : Type := List Nat

/-- State-threading embedding of `type_equal`: the source body touches no
global state, so the world passes through untouched. -/
def type_equalS (Src Target : RustType) : World → Bool × World :=
  fun w => (type_equal Src Target, w)

/-- State-threading embedding of `unty` (with drop instrumentation): the
source body touches no global state, so the world passes through untouched. -/
def untyS (Src Target : RustType) (x : Value) :
    World → (Except Value Value × Nat) × World :=
  fun w => (untyD Src Target x, w)

end Unty

namespace Unty

/-- Helper: erasing lifetimes is the identity on types satisfying the
`'static` bound. -/
theorem eraseLifetimes_of_isStatic (t : RustType) (h : isStatic t = true) :
    eraseLifetimes t = t := by
  induction t with
  | prim n => rfl
  | ref lt t ih =>
    simp only [isStatic, Bool.and_eq_true, decide_eq_true_eq] at h
    simp [eraseLifetimes, ih h.2, h.1]
  | app hd t ih =>
    simp only [isStatic] at h
    simp [eraseLifetimes, ih h]

/-- Helper: `type_equal` returns `false` exactly when the lifetime-erased
types differ. -/
theorem type_equal_eq_false_of_erase_ne (S T : RustType)
    (h : eraseLifetimes S ≠ eraseLifetimes T) : type_equal S T = false := by
  unfold type_equal non_static_type_id TypeId.of
  rw [beq_eq_false_iff_ne]
  intro hc
  exact h (congrArg TypeId.token hc)

end Unty

/-- C1: for every value `x` of type `T`, the cast `unty<T, T>(x)` succeeds,
the success value is bit-identical to the original `x`, and the destructor of
the underlying resource runs exactly once in total across the whole
operation. -/
theorem unty_same_type_roundtrip (T : RustType) (x : Unty.Value)
    (hx : x.ty = T) :
    Unty.unty T T x = Except.ok x ∧ Unty.totalDrops T T x = 1 := by
  subst hx
  simp [Unty.unty, Unty.untyD, Unty.type_equal, Unty.totalDrops,
    Unty.returnedHandles]

/-- Witness for C1 at the concrete type `u8` and bit pattern `[true]`. -/
theorem unty_same_type_roundtrip_witness :
    Unty.unty (RustType.prim "u8") (RustType.prim "u8")
        ⟨RustType.prim "u8", [true]⟩ =
      Except.ok ⟨RustType.prim "u8", [true]⟩ ∧
    Unty.totalDrops (RustType.prim "u8") (RustType.prim "u8")
        ⟨RustType.prim "u8", [true]⟩ = 1 :=
  unty_same_type_roundtrip (RustType.prim "u8") ⟨RustType.prim "u8", [true]⟩ rfl

/-- C2: `unty` performs zero destructor invocations during the call (on the
success path the original is wrapped in `ManuallyDrop`, on the failure path it
is moved into `Err`), and exactly one owned handle comes back to the caller,
so the resource-release logic runs exactly once in total — never zero times,
never twice.  The returned handle is either the `Target`-typed reinterpretation
with the original bits or the untouched original value. -/
theorem unty_drop_discipline (S T : RustType) (x : Unty.Value) :
    (Unty.untyD S T x).2 = 0 ∧ Unty.totalDrops S T x = 1 ∧
    ((Unty.untyD S T x).1 = Except.ok ⟨T, x.bits⟩ ∨
      (Unty.untyD S T x).1 = Except.error x) := by
  cases h : Unty.type_equal S T <;>
    simp [Unty.untyD, Unty.totalDrops, Unty.returnedHandles, h]

/-- C3: for a value `x` of type `T` and a type `U` genuinely different from
`T` (not merely by a lifetime parameter), `unty<T, U>(x)` fails, the failure
outcome carries `x` itself unchanged, and no destructor is invoked during the
failed attempt. -/
theorem unty_mismatch_returns_original (T U : RustType) (x : Unty.Value)
    (h : Unty.eraseLifetimes T ≠ Unty.eraseLifetimes U) :
    Unty.unty T U x = Except.error x ∧ (Unty.untyD T U x).2 = 0 := by
  have ht := Unty.type_equal_eq_false_of_erase_ne T U h
  simp [Unty.unty, Unty.untyD, ht]

/-- Witness for C3 at the concrete types `u8` and `u16`. -/
theorem unty_mismatch_returns_original_witness :
    Unty.eraseLifetimes (RustType.prim "u8") ≠
      Unty.eraseLifetimes (RustType.prim "u16") ∧
    Unty.unty (RustType.prim "u8") (RustType.prim "u16")
        ⟨RustType.prim "u8", [false, true]⟩ =
      Except.error ⟨RustType.prim "u8", [false, true]⟩ ∧
    (Unty.untyD (RustType.prim "u8") (RustType.prim "u16")
        ⟨RustType.prim "u8", [false, true]⟩).2 = 0 :=
  ⟨by decide,
    unty_mismatch_returns_original (RustType.prim "u8") (RustType.prim "u16")
      ⟨RustType.prim "u8", [false, true]⟩ (by decide)⟩

/-- C4: type-identity comparison is reflexive: `type_equal<T, T>()` returns
`true` for every type `T`. -/
theorem type_equal_refl (T : RustType) : Unty.type_equal T T = true := by
  simp [Unty.type_equal]

/-- C5: no false negatives: for every pair of types `T` and `U` that differ
by more than lifetime parameters (their lifetime-erased forms differ),
`type_equal<T, U>()` returns `false`. -/
theorem type_equal_no_false_negatives (T U : RustType)
    (h : Unty.eraseLifetimes T ≠ Unty.eraseLifetimes U) :
    Unty.type_equal T U = false :=
  Unty.type_equal_eq_false_of_erase_ne T U h

/-- Witness for C5 at the concrete types `u8` and `u16`. -/
theorem type_equal_no_false_negatives_witness :
    Unty.eraseLifetimes (RustType.prim "u8") ≠
      Unty.eraseLifetimes (RustType.prim "u16") ∧
    Unty.type_equal (RustType.prim "u8") (RustType.prim "u16") = false :=
  ⟨by decide,
    type_equal_no_false_negatives (RustType.prim "u8") (RustType.prim "u16")
      (by decide)⟩

/-- C6: documented false positive on region-only difference: for two borrowed
string views with distinct lifetimes `'a` and `'b`,
`type_equal<&'a str, &'b str>()` returns `true`. -/
theorem type_equal_str_refs_false_positive (la lb : Lifetime) (h : la ≠ lb) :
    Unty.type_equal (RustType.ref la (RustType.prim "str"))
      (RustType.ref lb (RustType.prim "str")) = true := by
  simp [Unty.type_equal, Unty.non_static_type_id, Unty.eraseLifetimes,
    Unty.TypeId.of]

/-- Witness for C6 at the concrete distinct lifetimes `'a = named 0` and
`'b = named 1`. -/
theorem type_equal_str_refs_false_positive_witness :
    Lifetime.named 0 ≠ Lifetime.named 1 ∧
    Unty.type_equal (RustType.ref (Lifetime.named 0) (RustType.prim "str"))
      (RustType.ref (Lifetime.named 1) (RustType.prim "str")) = true :=
  ⟨by decide,
    type_equal_str_refs_false_positive (Lifetime.named 0) (Lifetime.named 1)
      (by decide)⟩

/-- C7: totality of the cast: for every input, `unty<Src, Target>` terminates
and produces either the success outcome (the reinterpreted bits) or the exact
original value as the failure outcome — there is no panic path and no
partial-mutation path. -/
theorem unty_total (S T : RustType) (x : Unty.Value) :
    Unty.unty S T x = Except.ok ⟨T, x.bits⟩ ∨
      Unty.unty S T x = Except.error x := by
  cases h : Unty.type_equal S T <;> simp [Unty.unty, Unty.untyD, h]

/-- C8: determinism and purity: `type_equal` and `unty` leave the global state
untouched, repeated calls with the same type (and value) arguments from any
two states yield the same result, and whether `unty` succeeds depends only on
the type arguments, not on the instance's runtime bits. -/
theorem type_equal_unty_pure (S T : RustType) (x : Unty.Value)
    (w wTwo : Unty.World) :
    (Unty.type_equalS S T w).2 = w ∧
    (Unty.untyS S T x w).2 = w ∧
    (Unty.type_equalS S T w).1 = (Unty.type_equalS S T wTwo).1 ∧
    (Unty.untyS S T x w).1 = (Unty.untyS S T x wTwo).1 ∧
    (Unty.untyD S T x).1.toOption.isSome = Unty.type_equal S T := by
  refine ⟨rfl, rfl, rfl, rfl, ?_⟩
  cases h : Unty.type_equal S T <;> simp [Unty.untyD, h, Except.toOption]

/-- C9: type-identity comparison is symmetric: `type_equal<A, B>()` returns
the same boolean as `type_equal<B, A>()`. -/
theorem type_equal_symm (A B : RustType) :
    Unty.type_equal A B = Unty.type_equal B A := by
  unfold Unty.type_equal
  rcases eq_or_ne (Unty.non_static_type_id A) (Unty.non_static_type_id B) with
    h | h
  · rw [h]
  · simp [h, h.symm]

/-- C10: for every type `T` satisfying the host's `'static` bound,
`non_static_type_id<T>()` returns exactly the token of the host's direct
reflection primitive `TypeId::of::<T>()`: the marker-wrapping detour agrees
with the native facility wherever the native facility is applicable. -/
theorem non_static_type_id_agrees_with_host (T : RustType)
    (h : Unty.isStatic T = true) :
    Unty.non_static_type_id T = Unty.TypeId.of T := by
  unfold Unty.non_static_type_id
  rw [Unty.eraseLifetimes_of_isStatic T h]

/-- Witness for C10 at the concrete `'static` type `&'static str`. -/
theorem non_static_type_id_agrees_with_host_witness :
    Unty.isStatic (RustType.ref Lifetime.static (RustType.prim "str")) =
      true ∧
    Unty.non_static_type_id
        (RustType.ref Lifetime.static (RustType.prim "str")) =
      Unty.TypeId.of (RustType.ref Lifetime.static (RustType.prim "str")) :=
  ⟨by decide,
    non_static_type_id_agrees_with_host
      (RustType.ref Lifetime.static (RustType.prim "str")) (by decide)⟩
